import Mathlib

/-!
Verification of the rancheye-02-analysis task-queue processor and multi-model
analysis orchestrator.

The definitions below are a shallow embedding of the Python source:

* `src/src/providers/base.py` — `AnalysisResult` dataclass;
* `src/src/providers/openai_provider.py`, `gemini_provider.py` — the
  `analyze_image` adapters and their shared JSON parsing pipeline;
* `src/src/providers/provider_factory.py` — `create_provider` error conditions;
* `src/src/services/analysis_service.py` — `_check_agreement`,
  `analyze_with_dual_models`, `_save_analysis_log`, `process_analysis_task`;
* `src/src/db/supabase_client.py` — `check_cache`, `save_to_cache`,
  `update_task_status` (status write effects are modelled as a trace);
* `src/src/task_processor.py` — `run_continuous`.

Python strings are modelled as `List Char`; Python dicts produced by
`json.loads` are modelled by the inductive `PyJson` value type; Python floats
(model confidences, timestamps) are modelled as `ℚ` (all comparisons performed
by the code are exact on the values involved).  Network and storage effects are
modelled as oracle inputs: each provider call's outcome (raw text or raised
exception) is a parameter, and database writes are recorded in an explicit
trace.
-/

namespace RanchEye

/-- Brace characters, used instead of literals throughout. -/
def lbrace : Char := Char.ofNat 123

/-- Closing brace character. -/
def rbrace : Char := Char.ofNat 125

/-- Backtick character (used by markdown code fences). -/
def btick : Char := Char.ofNat 96

/--
Model of a decoded JSON value as produced by Python's `json.loads`:
`null`, booleans, numbers (as `ℚ`; exponent notation is not modelled, the
source never produces it), strings, arrays, and objects as ordered key-value
lists (Python dicts; `json.loads` keeps the first occurrence's position and
the last occurrence's value for duplicate keys, see `objInsert`).
-/
inductive PyJson where
  | null
  | bool (b : Bool)
  | num (q : ℚ)
  | str (s : String)
  | arr (xs : List PyJson)
  | obj (fields : List (String × PyJson))
deriving Repr

mutual

/-- Decidable equality for `PyJson` (the deriving handler does not support
this nested inductive). -/
def PyJson.decEq : (a b : PyJson) → Decidable (a = b)
  | .null, .null => isTrue rfl
  | .null, .bool _ => isFalse nofun
  | .null, .num _ => isFalse nofun
  | .null, .str _ => isFalse nofun
  | .null, .arr _ => isFalse nofun
  | .null, .obj _ => isFalse nofun
  | .bool _, .null => isFalse nofun
  | .bool a, .bool b =>
    if h : a = b then isTrue (by rw [h])
    else isFalse (by intro hc; cases hc; exact h rfl)
  | .bool _, .num _ => isFalse nofun
  | .bool _, .str _ => isFalse nofun
  | .bool _, .arr _ => isFalse nofun
  | .bool _, .obj _ => isFalse nofun
  | .num _, .null => isFalse nofun
  | .num _, .bool _ => isFalse nofun
  | .num a, .num b =>
    if h : a = b then isTrue (by rw [h])
    else isFalse (by intro hc; cases hc; exact h rfl)
  | .num _, .str _ => isFalse nofun
  | .num _, .arr _ => isFalse nofun
  | .num _, .obj _ => isFalse nofun
  | .str _, .null => isFalse nofun
  | .str _, .bool _ => isFalse nofun
  | .str _, .num _ => isFalse nofun
  | .str a, .str b =>
    if h : a = b then isTrue (by rw [h])
    else isFalse (by intro hc; cases hc; exact h rfl)
  | .str _, .arr _ => isFalse nofun
  | .str _, .obj _ => isFalse nofun
  | .arr _, .null => isFalse nofun
  | .arr _, .bool _ => isFalse nofun
  | .arr _, .num _ => isFalse nofun
  | .arr _, .str _ => isFalse nofun
  | .arr xs, .arr ys =>
    match PyJson.decEqList xs ys with
    | isTrue h => isTrue (by rw [h])
    | isFalse h => isFalse (by intro hc; cases hc; exact h rfl)
  | .arr _, .obj _ => isFalse nofun
  | .obj _, .null => isFalse nofun
  | .obj _, .bool _ => isFalse nofun
  | .obj _, .num _ => isFalse nofun
  | .obj _, .str _ => isFalse nofun
  | .obj _, .arr _ => isFalse nofun
  | .obj fs, .obj gs =>
    match PyJson.decEqFields fs gs with
    | isTrue h => isTrue (by rw [h])
    | isFalse h => isFalse (by intro hc; cases hc; exact h rfl)

/-- Decidable equality for lists of `PyJson`. -/
def PyJson.decEqList : (a b : List PyJson) → Decidable (a = b)
  | [], [] => isTrue rfl
  | [], _ :: _ => isFalse nofun
  | _ :: _, [] => isFalse nofun
  | x :: xs, y :: ys =>
    match PyJson.decEq x y with
    | isFalse h => isFalse (by intro hc; cases hc; exact h rfl)
    | isTrue h1 =>
      match PyJson.decEqList xs ys with
      | isTrue h2 => isTrue (by rw [h1, h2])
      | isFalse h2 => isFalse (by intro hc; cases hc; exact h2 rfl)

/-- Decidable equality for key-value field lists. -/
def PyJson.decEqFields : (a b : List (String × PyJson)) → Decidable (a = b)
  | [], [] => isTrue rfl
  | [], _ :: _ => isFalse nofun
  | _ :: _, [] => isFalse nofun
  | (k, v) :: xs, (l, w) :: ys =>
    match String.decEq k l with
    | isFalse h => isFalse (by intro hc; cases hc; exact h rfl)
    | isTrue h0 =>
      match PyJson.decEq v w with
      | isFalse h => isFalse (by intro hc; cases hc; exact h rfl)
      | isTrue h1 =>
        match PyJson.decEqFields xs ys with
        | isTrue h2 => isTrue (by rw [h0, h1, h2])
        | isFalse h2 => isFalse (by intro hc; cases hc; exact h2 rfl)

end

instance : DecidableEq PyJson := PyJson.decEq

/-- Whether a `PyJson` value is an object (a Python dict). -/
def PyJson.isObj : PyJson → Bool
  | .obj _ => true
  | _ => false

/--
Python `dict.get(k)` on a decoded JSON object: the value at key `k`, or
`none` when the key is absent.  On non-dict values Python would raise
`AttributeError`; the theorems that rely on `pyGet` therefore restrict to
object-shaped values, which is the only shape the provider adapters produce.
-/
def pyGet (j : PyJson) (k : String) : Option PyJson :=
  match j with
  | .obj fields => (fields.find? (fun p => p.1 == k)).map (fun p => p.2)
  | _ => none

/-- Insert into a decoded object the way `json.loads` builds a dict:
an existing key keeps its position and takes the new value, a new key is
appended. -/
def objInsert (fields : List (String × PyJson)) (k : String) (v : PyJson) :
    List (String × PyJson) :=
  if fields.any (fun p => p.1 == k) then
    fields.map (fun p => if p.1 == k then (k, v) else p)
  else fields ++ [(k, v)]

/-- JSON whitespace accepted between tokens by `json.loads`. -/
def isJsonWs (c : Char) : Bool :=
  c == ' ' || c == '\t' || c == '\n' || c == '\r'

/-- Skip leading JSON whitespace. -/
def skipJsonWs : List Char → List Char
  | [] => []
  | c :: cs => if isJsonWs c then skipJsonWs cs else c :: cs

/-- Parse the body of a JSON string after the opening quote, returning the
decoded characters and the remainder after the closing quote.  Escapes
`\" \\ \/ \n \t \r` are supported; `\u`/`\b`/`\f` escapes are outside the
modelled subset.  Control characters are rejected as `json.loads` does. -/
def parseStrBody : Nat → List Char → Option (List Char × List Char)
  | 0, _ => none
  | _ + 1, [] => none
  | n + 1, c :: cs =>
    if c == '"' then some ([], cs)
    else if c == '\\' then
      match cs with
      | [] => none
      | e :: cs2 =>
        let dec : Option Char :=
          if e == '"' then some '"'
          else if e == '\\' then some '\\'
          else if e == '/' then some '/'
          else if e == 'n' then some '\n'
          else if e == 't' then some '\t'
          else if e == 'r' then some '\r'
          else none
        match dec with
        | none => none
        | some d => (parseStrBody n cs2).map (fun p => (d :: p.1, p.2))
    else if c.toNat < 32 then none
    else (parseStrBody n cs).map (fun p => (c :: p.1, p.2))

/-- Numeric value of a decimal digit character. -/
def digitVal (c : Char) : Nat := c.toNat - 48

/-- Split off the longest run of leading decimal digits. -/
def takeDigits : List Char → (List Char × List Char)
  | [] => ([], [])
  | c :: cs =>
    if c.isDigit then
      let p := takeDigits cs
      (c :: p.1, p.2)
    else ([], c :: cs)

/-- Value of a digit run. -/
def natOfDigits (ds : List Char) : Nat :=
  ds.foldl (fun a c => a * 10 + digitVal c) 0

/-- Finish a number after its integer part: an optional fraction
(`json.loads` grammar `(-?(?:0|[1-9]\d*))(\.\d+)?`).  The value is assembled
with `mkRat` so that it is computable by kernel reduction. -/
def finishNum (neg : Bool) (ip : Nat) : List Char → Option (ℚ × List Char)
  | '.' :: rest =>
    let p := takeDigits rest
    if p.1.isEmpty then none
    else
      let mant : Int := (ip * 10 ^ p.1.length + natOfDigits p.1 : Nat)
      some (mkRat (if neg then -mant else mant) (10 ^ p.1.length), p.2)
  | rest => some (mkRat (if neg then -(ip : Int) else (ip : Int)) 1, rest)

/-- Parse a JSON number.  Leading zeros are rejected exactly as the
`json.loads` tokenizer does (`0` followed by digits stops after the `0`). -/
def parseNum (cs : List Char) : Option (ℚ × List Char) :=
  let pr : Bool × List Char :=
    match cs with
    | '-' :: rest => (true, rest)
    | _ => (false, cs)
  match pr.2 with
  | [] => none
  | c :: rest =>
    if c == '0' then finishNum pr.1 0 rest
    else if c.isDigit then
      let p := takeDigits rest
      finishNum pr.1 (natOfDigits (c :: p.1)) p.2
    else none

/-- Parse the members of a JSON object after the opening brace (non-empty
case), accumulating into `acc`; `pv` parses one value (tied to `parseVal`
below through fuel). -/
def parseMembersAux (pv : List Char → Option (PyJson × List Char)) :
    Nat → List Char → List (String × PyJson) → Option (PyJson × List Char)
  | 0, _, _ => none
  | n + 1, cs, acc =>
    match skipJsonWs cs with
    | '"' :: rest =>
      match parseStrBody (rest.length + 1) rest with
      | some (k, rest2) =>
        match skipJsonWs rest2 with
        | ':' :: rest3 =>
          match pv rest3 with
          | some (v, rest4) =>
            let acc2 := objInsert acc (String.mk k) v
            match skipJsonWs rest4 with
            | ',' :: rest5 => parseMembersAux pv n rest5 acc2
            | c :: rest5 =>
              if c == rbrace then some (.obj acc2, rest5) else none
            | [] => none
          | none => none
        | _ => none
      | none => none
    | _ => none

/-- Parse the items of a JSON array after the opening bracket (non-empty
case). -/
def parseItemsAux (pv : List Char → Option (PyJson × List Char)) :
    Nat → List Char → List PyJson → Option (PyJson × List Char)
  | 0, _, _ => none
  | n + 1, cs, acc =>
    match pv cs with
    | some (v, rest) =>
      match skipJsonWs rest with
      | ',' :: rest2 => parseItemsAux pv n rest2 (acc ++ [v])
      | ']' :: rest2 => some (.arr (acc ++ [v]), rest2)
      | _ => none
    | none => none

/-- Parse one JSON value (recursion on fuel; one unit of fuel per nesting
level, each level consumes at least one character). -/
def parseVal : Nat → List Char → Option (PyJson × List Char)
  | 0, _ => none
  | n + 1, cs =>
    match skipJsonWs cs with
    | [] => none
    | c :: rest =>
      if c == lbrace then
        match skipJsonWs rest with
        | c2 :: rest2 =>
          if c2 == rbrace then some (.obj [], rest2)
          else parseMembersAux (parseVal n) (rest.length + 1) rest []
        | [] => none
      else if c == '[' then
        match skipJsonWs rest with
        | ']' :: rest2 => some (.arr [], rest2)
        | _ => parseItemsAux (parseVal n) (rest.length + 1) rest []
      else if c == '"' then
        match parseStrBody (rest.length + 1) rest with
        | some (s, rest2) => some (.str (String.mk s), rest2)
        | none => none
      else if c == 't' then
        if "rue".data.isPrefixOf rest then some (.bool true, rest.drop 3)
        else none
      else if c == 'f' then
        if "alse".data.isPrefixOf rest then some (.bool false, rest.drop 4)
        else none
      else if c == 'n' then
        if "ull".data.isPrefixOf rest then some (.null, rest.drop 3)
        else none
      else if c == '-' || c.isDigit then
        match parseNum (c :: rest) with
        | some (q, rest2) => some (.num q, rest2)
        | none => none
      else none

/-- Model of Python `json.loads`: parse one value and require only
whitespace to remain (`Extra data` raises otherwise). -/
def jsonLoads (cs : List Char) : Option PyJson :=
  match parseVal (cs.length + 1) cs with
  | some (j, rest) => if skipJsonWs rest == [] then some j else none
  | none => none

/-- Whitespace stripped by Python `str.strip()`. -/
def isPyWs (c : Char) : Bool :=
  c == ' ' || c == '\t' || c == '\n' || c == '\r' ||
  c == Char.ofNat 11 || c == Char.ofNat 12

/-- Python `str.strip()`: drop leading and trailing whitespace. -/
def pyStrip (cs : List Char) : List Char :=
  ((cs.dropWhile isPyWs).reverse.dropWhile isPyWs).reverse

/-- The characters of the opening markdown fence `(three backticks)json`. -/
def fenceJson : List Char := [btick, btick, btick, 'j', 's', 'o', 'n']

/-- The characters of a bare markdown fence (three backticks). -/
def fenceTicks : List Char := [btick, btick, btick]

/-- The leading-fence removal of the cleaning step:
`if cleaned_response.startswith('(backticks)json'): cleaned_response =
cleaned_response[7:]`, else the bare-fence variant with `[3:]`. -/
def clean_leading_fence (c1 : List Char) : List Char :=
  if fenceJson.isPrefixOf c1 then c1.drop 7
  else if fenceTicks.isPrefixOf c1 then c1.drop 3
  else c1

/-- The trailing-fence removal of the cleaning step:
`if cleaned_response.endswith('(backticks)'): cleaned_response =
cleaned_response[:-3]`. -/
def clean_trailing_fence (c2 : List Char) : List Char :=
  if fenceTicks.isSuffixOf c2 then c2.take (c2.length - 3) else c2

/--
The response-cleaning step shared verbatim by `OpenAIProvider.analyze_image`
(`openai_provider.py` lines 77-87) and `GeminiProvider.analyze_image`
(`gemini_provider.py` lines 79-89): strip, remove a leading fence
(`(backticks)json` first, else bare backticks), remove a trailing fence, and
strip again.
-/
def clean_response (raw : List Char) : List Char :=
  pyStrip (clean_trailing_fence (clean_leading_fence (pyStrip raw)))

/-- Index of the first character satisfying `p`. -/
def firstIdxFrom (p : Char → Bool) : List Char → Option Nat
  | [] => none
  | c :: cs => if p c then some 0 else (firstIdxFrom p cs).map (· + 1)

/--
Model of `re.search(r'\x7b.*\x7d', raw_response, re.DOTALL)` followed by
`.group()`: the greedy match runs from the first opening brace to the last
closing brace of the whole text (not the first *balanced* span), and exists
only when some closing brace occurs after the first opening brace.
-/
def extract_json_span (raw : List Char) : Option (List Char) :=
  match firstIdxFrom (· == lbrace) raw with
  | none => none
  | some i =>
    match firstIdxFrom (· == rbrace) raw.reverse with
    | none => none
    | some k =>
      if i < raw.length - 1 - k then
        some ((raw.drop i).take ((raw.length - 1 - k) - i + 1))
      else none

/-- Model of `parsed_data.get('confidence', 0.5)`, restricted to numeric confidence
values (the only case exercised by the code's comparisons; a non-numeric
value would be carried opaquely by Python and is abstracted to the default
here). -/
def confidence_of (j : PyJson) : ℚ :=
  match pyGet j "confidence" with
  | some (.num q) => q
  | some _ => mkRat 1 2
  | none => mkRat 1 2

/-- The error payload both providers build when no JSON can be recovered
from the raw response. -/
def error_payload (raw : List Char) : PyJson :=
  .obj [("error", .str "Failed to parse JSON response"),
        ("raw", .str (String.mk raw))]

/-- Outcome of the parsing pipeline applied to a raw model response:
either parsed data plus a confidence, or the `AttributeError` raised by
`parsed_data.get` when direct decoding yields a non-dict (which escapes the
`except json.JSONDecodeError` handler). -/
inductive ParsedResponse where
  | ok (parsed_data : PyJson) (confidence : ℚ)
  | attrError
deriving DecidableEq, Repr

/--
The three-tier parsing pipeline shared verbatim by both provider adapters
(`openai_provider.py` lines 77-107, `gemini_provider.py` lines 79-109):
clean the response and try `json.loads`; on `JSONDecodeError`, extract the
greedy brace span from the *original* raw response and retry; on any failure
inside the fallback (including a non-dict result, caught by the bare
`except:`), return the error payload with confidence 0.  A successful direct
decode of a non-dict raises `AttributeError` at `parsed_data.get`.
-/
def parse_response (raw : List Char) : ParsedResponse :=
  match jsonLoads (clean_response raw) with
  | some j =>
    match j with
    | .obj fs => .ok (.obj fs) (confidence_of (.obj fs))
    | _ => .attrError
  | none =>
    match extract_json_span raw with
    | some sub =>
      match jsonLoads sub with
      | some j =>
        match j with
        | .obj fs => .ok (.obj fs) (confidence_of (.obj fs))
        | _ => .ok (error_payload raw) 0
      | none => .ok (error_payload raw) 0
    | none => .ok (error_payload raw) 0

/--
Model of `AnalysisResult` from `providers/base.py`: the output of one model
invocation.  `raw_response` is a Python string, modelled as `List Char`.
-/
structure AnalysisResult where
  provider : String
  model : String
  raw_response : List Char
  parsed_data : PyJson
  confidence : ℚ
  tokens_used : Nat
  processing_time_ms : Nat
  error : Option String := none
  input_tokens : Option Nat := none
  output_tokens : Option Nat := none
deriving DecidableEq, Repr

/-- Oracle for one OpenAI chat-completions call: the API either returns a
message (whose content may be `None` for blocked output) with token usage,
or raises (network error, timeout, API error, ...). -/
inductive OpenAIOutcome where
  | ok (content : Option (List Char)) (total_tokens input_tokens output_tokens : Nat)
  | raises (msg : String)

/-- Abstract rendering of the message of the Python `AttributeError` raised
when the parsed value or the `None` content is used; the adapter only embeds
it into strings, its exact text is irrelevant to every claim. -/
def attrErrorText : String := "AttributeError"

/-- Error prefix used by the OpenAI adapter's exception handler. -/
def openai_api_error (msg : String) : String := "OpenAI API Error: " ++ msg

/-- The error-shaped `AnalysisResult` built by the OpenAI adapter's
`except` handler (`openai_provider.py` lines 123-137). -/
def openai_error_result (msg : String) (model : String) (elapsed_ms : Nat) :
    AnalysisResult :=
  { provider := "openai", model := model,
    raw_response := (openai_api_error msg).data,
    parsed_data := .obj [("error", .str (openai_api_error msg))],
    confidence := 0, tokens_used := 0, processing_time_ms := elapsed_ms,
    error := some (openai_api_error msg) }

/--
Model of `OpenAIProvider.analyze_image` (`openai_provider.py` lines 14-137), as a
function of the API call's outcome.  Totality of this function models the
contract that the adapter never propagates an exception: the whole body is
wrapped in `try/except`, and the handler returns an error result.  `None`
content raises (`raw_response[:500]` / `.strip()` on `None`) inside the
`try` and is likewise converted.
-/
def openai_analyze_image (outcome : OpenAIOutcome) (model : String)
    (elapsed_ms : Nat) : AnalysisResult :=
  match outcome with
  | .raises msg => openai_error_result msg model elapsed_ms
  | .ok none _ _ _ => openai_error_result attrErrorText model elapsed_ms
  | .ok (some raw) total inp out =>
    match parse_response raw with
    | .ok data conf =>
      { provider := "openai", model := model, raw_response := raw,
        parsed_data := data, confidence := conf, tokens_used := total,
        processing_time_ms := elapsed_ms, error := none,
        input_tokens := some inp, output_tokens := some out }
    | .attrError => openai_error_result attrErrorText model elapsed_ms

/-- Oracle for one Gemini `generate_content` call: response text (possibly
empty — blocked or incomplete) plus token accounting, or a raised
exception.  `tokens_used` carries the usage-metadata sum or the word-count
estimate; its computation from the prompt is not modelled as no claim
depends on it. -/
inductive GeminiOutcome where
  | ok (text : List Char) (tokens_used : Nat)
       (input_tokens output_tokens : Option Nat)
  | raises (msg : String)

/-- The error-shaped `AnalysisResult` built by the Gemini adapter's
`except` handler (`gemini_provider.py` lines 125-136): empty raw response,
empty dict payload, confidence 0, `error` set to the exception text. -/
def gemini_error_result (msg : String) (model : String) (elapsed_ms : Nat) :
    AnalysisResult :=
  { provider := "gemini", model := model, raw_response := [],
    parsed_data := .obj [], confidence := 0, tokens_used := 0,
    processing_time_ms := elapsed_ms, error := some msg }

/--
Model of `GeminiProvider.analyze_image` (`gemini_provider.py` lines 15-136).  An
empty response text raises `Exception("Empty response from Gemini")` inside
the `try`, which the handler converts into an error result (the optional
`prompt_feedback` suffix of that message is not modelled).
-/
def gemini_analyze_image (outcome : GeminiOutcome) (model : String)
    (elapsed_ms : Nat) : AnalysisResult :=
  match outcome with
  | .raises msg => gemini_error_result msg model elapsed_ms
  | .ok text toks inT outT =>
    if text.isEmpty then
      gemini_error_result "Empty response from Gemini" model elapsed_ms
    else
      match parse_response text with
      | .ok data conf =>
        { provider := "gemini", model := model, raw_response := text,
          parsed_data := data, confidence := conf, tokens_used := toks,
          processing_time_ms := elapsed_ms, error := none,
          input_tokens := inT, output_tokens := outT }
      | .attrError => gemini_error_result attrErrorText model elapsed_ms

/-- Python truthiness of an optional string: `None` and the empty string
are falsy (`not config.get('secondary_provider')`, `not
secondary_provider_key`, ...). -/
def truthyS : Option String → Bool
  | none => false
  | some s => !s.isEmpty

/--
The `analysis_configs` row fields read by the analysis service (a loosely-typed
dict in the source; optional columns are modelled as `Option`, with `none`
covering both an absent key and a SQL `NULL`).
-/
structure AnalysisConfig where
  analysis_type : String
  prompt_template : String
  primary_provider : String
  primary_model : String
  secondary_provider : Option String := none
  secondary_model : Option String := none
  tiebreaker_provider : Option String := none
  tiebreaker_model : Option String := none
  threshold : Option ℚ := none

/--
Model of `_check_agreement` (`analysis_service.py` lines 204-221): the analysis-type
specific agreement predicate, reading the relevant fields with defaulting
`dict.get` lookups (so a field absent from both results compares equal as
`None == None`).  On non-dict inputs Python would raise; all call sites pass
adapter-produced dicts, and the theorems restrict accordingly.
-/
def check_agreement (result1 result2 : PyJson) (analysis_type : String) :
    Bool :=
  if analysis_type = "gate_detection" then
    decide (pyGet result1 "gate_visible" = pyGet result2 "gate_visible" ∧
            pyGet result1 "gate_open" = pyGet result2 "gate_open")
  else if analysis_type = "water_level" then
    decide (pyGet result1 "water_level" = pyGet result2 "water_level")
  else if analysis_type = "feed_bin" then
    decide (pyGet result1 "feed_level" = pyGet result2 "feed_level")
  else
    decide (pyGet result1 "conclusion" = pyGet result2 "conclusion")

/-- The dict returned by `analyze_with_dual_models` (the consensus
outcome): up to three `ProviderResult`s, the chosen final parsed data, and
the agreement / tiebreaker flags.  An absent `tiebreaker_result` key models
that no tiebreaker call was made. -/
structure ConsensusOutcome where
  primary_result : AnalysisResult
  secondary_result : Option AnalysisResult
  tiebreaker_result : Option AnalysisResult
  final_result : PyJson
  agreement : Bool
  tiebreaker_used : Bool
deriving DecidableEq, Repr

/-- Python `str.lower()` (character-wise; provider names are ASCII). -/
def pyLower (s : String) : String := String.mk (s.data.map Char.toLower)

/-- Python `str.upper()` (character-wise; provider names are ASCII). -/
def pyUpper (s : String) : String := String.mk (s.data.map Char.toUpper)

/-- Whether `provider_name.lower()` is a key of the factory's provider
table (`provider_factory.py` lines 10-13). -/
def provider_supported (name : String) : Bool :=
  pyLower name == "openai" || pyLower name == "gemini"

/-- The `ValueError` raised by `ProviderFactory.create_provider`
(`provider_factory.py` lines 15-21), or `none` when construction succeeds.
The service-level instance cache keyed by provider name is modelled as
empty (a fresh `AnalysisService`); the cache can only suppress the key
check for a name that was already constructed successfully, which no claim
exercises. -/
def get_provider_err (name : String) (key : Option String) : Option String :=
  if !provider_supported name then some ("Unsupported provider: " ++ name)
  else if !truthyS key then some ("API key required for " ++ name)
  else none

/--
Model of `AnalysisService.analyze_with_dual_models` (`analysis_service.py` lines
72-202) as a function of the config, the three resolved API keys, and
oracle results for the three possible provider calls (`*_call` is what the
corresponding provider's `analyze_image` returns *if* it is invoked; the
adapters never raise, so the only exceptions escaping this method are the
factory's `ValueError`s, modelled by the `Except.error` branch).
-/
def analyze_with_dual_models (config : AnalysisConfig)
    (primary_provider_key secondary_provider_key tiebreaker_provider_key :
      Option String)
    (primary_call secondary_call tiebreaker_call : AnalysisResult) :
    Except String ConsensusOutcome :=
  match get_provider_err config.primary_provider primary_provider_key with
  | some e => .error e
  | none =>
    let primary_result := primary_call
    if !truthyS config.secondary_provider || !truthyS secondary_provider_key
    then
      .ok { primary_result := primary_result, secondary_result := none,
            tiebreaker_result := none,
            final_result := primary_result.parsed_data,
            agreement := true, tiebreaker_used := false }
    else
      match get_provider_err (config.secondary_provider.getD "")
          secondary_provider_key with
      | some e => .error e
      | none =>
        let secondary_result := secondary_call
        if check_agreement primary_result.parsed_data
            secondary_result.parsed_data config.analysis_type then
          .ok { primary_result := primary_result,
                secondary_result := some secondary_result,
                tiebreaker_result := none,
                final_result := primary_result.parsed_data,
                agreement := true, tiebreaker_used := false }
        else if truthyS config.tiebreaker_provider &&
            truthyS tiebreaker_provider_key then
          match get_provider_err (config.tiebreaker_provider.getD "")
              tiebreaker_provider_key with
          | some e => .error e
          | none =>
            let tiebreaker_result := tiebreaker_call
            .ok { primary_result := primary_result,
                  secondary_result := some secondary_result,
                  tiebreaker_result := some tiebreaker_result,
                  final_result := tiebreaker_result.parsed_data,
                  agreement := false, tiebreaker_used := true }
        else if primary_result.confidence ≥ secondary_result.confidence then
          .ok { primary_result := primary_result,
                secondary_result := some secondary_result,
                tiebreaker_result := none,
                final_result := primary_result.parsed_data,
                agreement := false, tiebreaker_used := false }
        else
          .ok { primary_result := primary_result,
                secondary_result := some secondary_result,
                tiebreaker_result := none,
                final_result := secondary_result.parsed_data,
                agreement := false, tiebreaker_used := false }

/-- The fields of the `ai_analysis_logs` row written by
`_save_analysis_log` / `save_ai_analysis_log` that describe the call's
success (`analysis_service.py` lines 44-67): `analysis_successful` is
`result.error is None`. -/
structure AnalysisLogEntry where
  analysis_successful : Bool
  error_message : Option String
  parsed_response : PyJson
  confidence : ℚ
  raw_response : List Char
deriving DecidableEq, Repr

/-- Build the log entry persisted for one `AnalysisResult`. -/
def save_analysis_log_entry (result : AnalysisResult) : AnalysisLogEntry :=
  { analysis_successful := result.error.isNone,
    error_message := result.error,
    parsed_response := result.parsed_data,
    confidence := result.confidence,
    raw_response := result.raw_response }

/-- Outcome of `SupabaseClient.download_image` (`supabase_client.py` lines
41-56): unlike every other client method, it re-raises on failure. -/
inductive DownloadOutcome where
  | ok
  | raises (msg : String)
deriving DecidableEq

/--
Oracle environment for one `process_analysis_task` run: what each
collaborator call returns.  `get_analysis_task` / `get_analysis_config` /
`get_image_metadata` swallow their exceptions and return `None` on any
failure, modelled by the `_found`/`Option` fields; `update_task_status`,
`save_analysis_result`, `_save_analysis_log` and `create_alert` swallow all
exceptions, so they never influence control flow.  `prior_status` is the
task row's status when the run starts; the code never reads it.
-/
structure TaskEnv where
  task_found : Bool
  prior_status : String
  config : Option AnalysisConfig
  image_found : Bool
  download : DownloadOutcome
  api_keys : String → Option String
  primary_call : AnalysisResult
  secondary_call : AnalysisResult
  tiebreaker_call : AnalysisResult

/-- One status write performed via `update_task_status`: the new status and
the error message passed along with it. -/
def StatusUpdate := String × Option String
deriving instance DecidableEq for StatusUpdate

/--
Model of `AnalysisService.process_analysis_task` (`analysis_service.py` lines
239-334), returning the method's boolean result together with the ordered
trace of `update_task_status` writes.  Control flow mirrors the source:
missing task/config/image return `False` with no status write; the image is
downloaded *before* the status is set to `processing`, so a download failure
is caught by the outer handler and writes `failed` directly; a `ValueError`
from the provider factory inside `analyze_with_dual_models` is likewise
caught and writes `failed` after `processing`; `results['final_result']
.get('confidence', 0.5)` raises `AttributeError` when the final result is
not a dict, which also lands in the `failed` branch; otherwise the task is
marked `completed` (log/result/alert persistence failures are swallowed by
the client and cannot fail the task).
-/
def process_analysis_task (env : TaskEnv) : Bool × List StatusUpdate :=
  if !env.task_found then (false, [])
  else
    match env.config with
    | none => (false, [])
    | some config =>
      if !env.image_found then (false, [])
      else
        match env.download with
        | .raises msg => (false, [("failed", some msg)])
        | .ok =>
          let primary_key :=
            env.api_keys (pyUpper config.primary_provider ++ "_API_KEY")
          let secondary_key :=
            env.api_keys (pyUpper (config.secondary_provider.getD "") ++
              "_API_KEY")
          let tiebreaker_key :=
            env.api_keys (pyUpper (config.tiebreaker_provider.getD "") ++
              "_API_KEY")
          match analyze_with_dual_models config primary_key secondary_key
              tiebreaker_key env.primary_call env.secondary_call
              env.tiebreaker_call with
          | .error msg =>
            (false, [("processing", none), ("failed", some msg)])
          | .ok results =>
            if results.final_result.isObj then
              (true, [("processing", none), ("completed", none)])
            else
              (false, [("processing", none), ("failed", some attrErrorText)])

/-- Cache key tuple: (image content hash, analysis type, provider, model). -/
structure CacheKey where
  image_hash : String
  analysis_type : String
  provider : String
  model : String
deriving DecidableEq

/-- An `analysis_cache` row as read back by `check_cache`. -/
structure CacheEntry where
  result : PyJson
  confidence : ℚ
  expires_at : ℚ
deriving DecidableEq

/-- The `analysis_cache` table, keyed by the tuple `upsert`s on.
Timestamps are modelled as rationals measured in hours. -/
abbrev CacheState := CacheKey → Option CacheEntry

/-- Model of `SupabaseClient.save_to_cache` (`supabase_client.py` lines 183-207):
upsert the row with `expires_at = utcnow() + timedelta(hours=cache_hours)`. -/
def save_to_cache (st : CacheState) (now : ℚ) (k : CacheKey)
    (result : PyJson) (confidence : ℚ) (cache_hours : ℚ) : CacheState :=
  fun k' =>
    if k' = k then
      some { result := result, confidence := confidence,
             expires_at := now + cache_hours }
    else st k'

/-- Model of `SupabaseClient.check_cache` (`supabase_client.py` lines 158-181):
return the row for the key tuple only when `expires_at > utcnow()`
(strictly); a missing or expired row yields `None`. -/
def check_cache (st : CacheState) (now : ℚ) (k : CacheKey) :
    Option CacheEntry :=
  match st k with
  | some row => if now < row.expires_at then some row else none
  | none => none

/-- Outcome of one `process_batch()` call as observed by `run_continuous`:
the number of successfully processed tasks and the elapsed wall time in
seconds, or an exception escaping the loop body. -/
inductive BatchOutcome where
  | ok (processed : Nat) (elapsed : ℚ)
  | raises

/-- What `run_continuous` does after one iteration: loop again immediately,
or sleep for the given number of seconds before the next batch (the code
skips the `asyncio.sleep` call when the computed wait is 0, which is the
same behaviour as sleeping 0 seconds). -/
inductive LoopDecision where
  | immediate
  | sleepFor (seconds : ℚ)
deriving DecidableEq

/--
One iteration of `TaskProcessor.run_continuous` (`task_processor.py` lines
79-99): a full batch (`processed == self.batch_size`) continues
immediately; otherwise the loop sleeps `max(0, interval_minutes * 60 -
elapsed)`; an exception escaping the body is logged and followed by a fixed
60-second backoff.
-/
def run_continuous_step (batch_size : Nat) (interval_minutes : ℚ) :
    BatchOutcome → LoopDecision
  | .ok processed elapsed =>
    if processed = batch_size then .immediate
    else .sleepFor (max 0 (interval_minutes * 60 - elapsed))
  | .raises => .sleepFor 60

/-- The `while True` loop of `run_continuous`, driven by a stream of batch
outcomes: every outcome — including an exception — produces a decision and
the loop continues to the next one; no outcome terminates the loop. -/
def run_continuous (batch_size : Nat) (interval_minutes : ℚ) :
    List BatchOutcome → List LoopDecision
  | [] => []
  | o :: rest =>
    run_continuous_step batch_size interval_minutes o ::
      run_continuous batch_size interval_minutes rest

/-- Spec-side transition relation for claim C9: the monotonic status order
`pending → processing → (completed | failed)`. -/
def status_step_allowed (src dst : String) : Bool :=
  (src == "pending" && dst == "processing") ||
  (src == "processing" && (dst == "completed" || dst == "failed"))

/-- Whether a sequence of status writes starting from `src` only takes
allowed steps. -/
def chain_allowed : String → List String → Bool
  | _, [] => true
  | src, dst :: rest => status_step_allowed src dst && chain_allowed dst rest

/-! ### Sample data used by the witnesses -/

/-- A dual-model gate-detection config with a tiebreaker. -/
def cfgDual : AnalysisConfig :=
  { analysis_type := "gate_detection",
    prompt_template := "Analyze the gate",
    primary_provider := "openai", primary_model := "gpt-4o",
    secondary_provider := some "gemini",
    secondary_model := some "gemini-1.5-flash",
    tiebreaker_provider := some "openai",
    tiebreaker_model := some "gpt-4o-mini" }

/-- A gate-detection config without secondary or tiebreaker models. -/
def cfgSolo : AnalysisConfig :=
  { analysis_type := "gate_detection",
    prompt_template := "Analyze the gate",
    primary_provider := "openai", primary_model := "gpt-4o" }

/-- A primary result reporting an open gate with confidence 0.9. -/
def resGateOpen : AnalysisResult :=
  { provider := "openai", model := "gpt-4o", raw_response := [],
    parsed_data := .obj [("gate_visible", .bool true),
                         ("gate_open", .bool true),
                         ("confidence", .num (mkRat 9 10))],
    confidence := mkRat 9 10, tokens_used := 120,
    processing_time_ms := 800 }

/-- A secondary result reporting a closed gate with confidence 0.8. -/
def resGateClosed : AnalysisResult :=
  { provider := "gemini", model := "gemini-1.5-flash", raw_response := [],
    parsed_data := .obj [("gate_visible", .bool true),
                         ("gate_open", .bool false),
                         ("confidence", .num (mkRat 4 5))],
    confidence := mkRat 4 5, tokens_used := 90,
    processing_time_ms := 700 }

/-- A second result agreeing with `resGateOpen` on the relevant fields. -/
def resGateOpenAgain : AnalysisResult :=
  { provider := "gemini", model := "gemini-1.5-flash", raw_response := [],
    parsed_data := .obj [("gate_visible", .bool true),
                         ("gate_open", .bool true),
                         ("confidence", .num (mkRat 3 5))],
    confidence := mkRat 3 5, tokens_used := 95,
    processing_time_ms := 650 }

/-- A tiebreaker result reporting an open gate with low confidence 0.4. -/
def resTieLow : AnalysisResult :=
  { provider := "openai", model := "gpt-4o-mini", raw_response := [],
    parsed_data := .obj [("gate_visible", .bool true),
                         ("gate_open", .bool true),
                         ("confidence", .num (mkRat 2 5))],
    confidence := mkRat 2 5, tokens_used := 60,
    processing_time_ms := 400 }

/-- An adapter result whose parsed data is a parse-failure error payload. -/
def resUnparseable1 : AnalysisResult :=
  { provider := "openai", model := "gpt-4o",
    raw_response := "I cannot tell".data,
    parsed_data := error_payload "I cannot tell".data,
    confidence := 0, tokens_used := 40, processing_time_ms := 300 }

/-- A second parse-failure error payload result. -/
def resUnparseable2 : AnalysisResult :=
  { provider := "gemini", model := "gemini-1.5-flash",
    raw_response := "No idea".data,
    parsed_data := error_payload "No idea".data,
    confidence := 0, tokens_used := 35, processing_time_ms := 250 }

/-! ### Claims -/

/--
Claim C1: for every task where the primary and secondary results disagree
and a tiebreaker provider is configured (with a usable API key, which is
what configuration means at the system level — `process_analysis_task`
resolves the key from the provider name), the consensus outcome's final
result equals the tiebreaker call's parsed data — regardless of the
tiebreaker result `t`, in particular of its confidence value — with
`agreement = false` and `tiebreaker_used = true`.
-/
theorem C1_tiebreaker_result_is_final (config : AnalysisConfig)
    (pk sk tk : Option String) (p s t : AnalysisResult)
    (hpk : get_provider_err config.primary_provider pk = none)
    (hsec : truthyS config.secondary_provider = true)
    (hskey : truthyS sk = true)
    (hserr : get_provider_err (config.secondary_provider.getD "") sk = none)
    (hobjp : p.parsed_data.isObj = true)
    (hobjs : s.parsed_data.isObj = true)
    (hdis : check_agreement p.parsed_data s.parsed_data
      config.analysis_type = false)
    (htie : truthyS config.tiebreaker_provider = true)
    (htkey : truthyS tk = true)
    (hterr : get_provider_err (config.tiebreaker_provider.getD "") tk = none) :
    analyze_with_dual_models config pk sk tk p s t =
      .ok { primary_result := p, secondary_result := some s,
            tiebreaker_result := some t, final_result := t.parsed_data,
            agreement := false, tiebreaker_used := true } := by
  simp [analyze_with_dual_models, hpk, hsec, hskey, hserr, hdis, htie,
    htkey, hterr]

/-- Witness for C1 at concrete inputs: the spec's own scenario — primary
says `gate_open: true` (0.9), secondary says `gate_open: false` (0.8), the
tiebreaker answers `gate_open: true` with confidence only 0.4 and still
decides the final result. -/
theorem C1_tiebreaker_result_is_final_witness :
    analyze_with_dual_models cfgDual (some "pk") (some "sk") (some "tk")
        resGateOpen resGateClosed resTieLow =
      .ok { primary_result := resGateOpen,
            secondary_result := some resGateClosed,
            tiebreaker_result := some resTieLow,
            final_result := resTieLow.parsed_data,
            agreement := false, tiebreaker_used := true } :=
  C1_tiebreaker_result_is_final cfgDual (some "pk") (some "sk") (some "tk")
    resGateOpen resGateClosed resTieLow (by decide) (by decide) (by decide)
    (by decide) (by decide) (by decide) (by decide) (by decide) (by decide)
    (by decide)

/--
Claim C2: for every task where primary and secondary disagree and no
tiebreaker is available (provider unconfigured or key missing — the code's
guard), the final result is the parsed data of the higher-confidence
result, the primary winning exact ties (`primary.confidence >=
secondary.confidence` selects the primary).
-/
theorem C2_higher_confidence_wins (config : AnalysisConfig)
    (pk sk tk : Option String) (p s t : AnalysisResult)
    (hpk : get_provider_err config.primary_provider pk = none)
    (hsec : truthyS config.secondary_provider = true)
    (hskey : truthyS sk = true)
    (hserr : get_provider_err (config.secondary_provider.getD "") sk = none)
    (hobjp : p.parsed_data.isObj = true)
    (hobjs : s.parsed_data.isObj = true)
    (hdis : check_agreement p.parsed_data s.parsed_data
      config.analysis_type = false)
    (hnotie : (truthyS config.tiebreaker_provider && truthyS tk) = false) :
    (s.confidence ≤ p.confidence →
      analyze_with_dual_models config pk sk tk p s t =
        .ok { primary_result := p, secondary_result := some s,
              tiebreaker_result := none, final_result := p.parsed_data,
              agreement := false, tiebreaker_used := false }) ∧
    (p.confidence < s.confidence →
      analyze_with_dual_models config pk sk tk p s t =
        .ok { primary_result := p, secondary_result := some s,
              tiebreaker_result := none, final_result := s.parsed_data,
              agreement := false, tiebreaker_used := false }) := by
  constructor
  · intro hge
    simp [analyze_with_dual_models, hpk, hsec, hskey, hserr, hdis, hnotie,
      ge_iff_le, hge]
  · intro hlt
    simp [analyze_with_dual_models, hpk, hsec, hskey, hserr, hdis, hnotie,
      ge_iff_le, not_le.mpr hlt]

/-- Witness for C2: with no tiebreaker key available, the 0.9-confidence
primary beats the 0.8-confidence secondary; swapping the two results makes
the (now higher-confidence) secondary win. -/
theorem C2_higher_confidence_wins_witness :
    (analyze_with_dual_models cfgDual (some "pk") (some "sk") none
        resGateOpen resGateClosed resTieLow =
      .ok { primary_result := resGateOpen,
            secondary_result := some resGateClosed,
            tiebreaker_result := none,
            final_result := resGateOpen.parsed_data,
            agreement := false, tiebreaker_used := false }) ∧
    (analyze_with_dual_models cfgDual (some "pk") (some "sk") none
        resGateClosed resGateOpen resTieLow =
      .ok { primary_result := resGateClosed,
            secondary_result := some resGateOpen,
            tiebreaker_result := none,
            final_result := resGateOpen.parsed_data,
            agreement := false, tiebreaker_used := false }) :=
  ⟨(C2_higher_confidence_wins cfgDual (some "pk") (some "sk") none
      resGateOpen resGateClosed resTieLow (by decide) (by decide)
      (by decide) (by decide) (by decide) (by decide) (by decide)
      (by decide)).1 (by decide),
   (C2_higher_confidence_wins cfgDual (some "pk") (some "sk") none
      resGateClosed resGateOpen resTieLow (by decide) (by decide)
      (by decide) (by decide) (by decide) (by decide) (by decide)
      (by decide)).2 (by decide)⟩

/-- Helper shared by C3 and C10: when the agreement predicate holds, the
engine returns the primary's parsed data with `agreement = true` and no
tiebreaker call. -/
theorem analyze_agreement_case (config : AnalysisConfig)
    (pk sk tk : Option String) (p s t : AnalysisResult)
    (hpk : get_provider_err config.primary_provider pk = none)
    (hsec : truthyS config.secondary_provider = true)
    (hskey : truthyS sk = true)
    (hserr : get_provider_err (config.secondary_provider.getD "") sk = none)
    (hagr : check_agreement p.parsed_data s.parsed_data
      config.analysis_type = true) :
    analyze_with_dual_models config pk sk tk p s t =
      .ok { primary_result := p, secondary_result := some s,
            tiebreaker_result := none, final_result := p.parsed_data,
            agreement := true, tiebreaker_used := false } := by
  simp [analyze_with_dual_models, hpk, hsec, hskey, hserr, hagr]

/--
Claim C3: for every analysis type, if the primary and secondary parsed
results have identical relevant fields for that type (gate_detection:
`gate_visible` and `gate_open` both equal; water_level: `water_level`
equal; feed_bin: `feed_level` equal; any other type: `conclusion` equal),
then `agreement = true`, no tiebreaker call is made (`tiebreaker_result`
is absent and `tiebreaker_used = false`), and the final result is the
primary's parsed data.
-/
theorem C3_agreement_no_tiebreaker (config : AnalysisConfig)
    (pk sk tk : Option String) (p s t : AnalysisResult)
    (hpk : get_provider_err config.primary_provider pk = none)
    (hsec : truthyS config.secondary_provider = true)
    (hskey : truthyS sk = true)
    (hserr : get_provider_err (config.secondary_provider.getD "") sk = none)
    (hobjp : p.parsed_data.isObj = true)
    (hobjs : s.parsed_data.isObj = true)
    (hfields :
      (config.analysis_type = "gate_detection" ∧
        pyGet p.parsed_data "gate_visible" =
          pyGet s.parsed_data "gate_visible" ∧
        pyGet p.parsed_data "gate_open" = pyGet s.parsed_data "gate_open") ∨
      (config.analysis_type = "water_level" ∧
        pyGet p.parsed_data "water_level" =
          pyGet s.parsed_data "water_level") ∨
      (config.analysis_type = "feed_bin" ∧
        pyGet p.parsed_data "feed_level" = pyGet s.parsed_data "feed_level") ∨
      (config.analysis_type ≠ "gate_detection" ∧
        config.analysis_type ≠ "water_level" ∧
        config.analysis_type ≠ "feed_bin" ∧
        pyGet p.parsed_data "conclusion" =
          pyGet s.parsed_data "conclusion")) :
    analyze_with_dual_models config pk sk tk p s t =
      .ok { primary_result := p, secondary_result := some s,
            tiebreaker_result := none, final_result := p.parsed_data,
            agreement := true, tiebreaker_used := false } := by
  have hagr : check_agreement p.parsed_data s.parsed_data
      config.analysis_type = true := by
    rcases hfields with ⟨ht, h1, h2⟩ | ⟨ht, h1⟩ | ⟨ht, h1⟩ |
      ⟨ht1, ht2, ht3, h1⟩ <;>
      simp [check_agreement, *]
  exact analyze_agreement_case config pk sk tk p s t hpk hsec hskey hserr
    hagr

/-- Witness for C3: two results agreeing on `gate_visible`/`gate_open`
(despite different confidences) — the primary's payload is final, no
tiebreaker. -/
theorem C3_agreement_no_tiebreaker_witness :
    analyze_with_dual_models cfgDual (some "pk") (some "sk") (some "tk")
        resGateOpen resGateOpenAgain resTieLow =
      .ok { primary_result := resGateOpen,
            secondary_result := some resGateOpenAgain,
            tiebreaker_result := none,
            final_result := resGateOpen.parsed_data,
            agreement := true, tiebreaker_used := false } :=
  C3_agreement_no_tiebreaker cfgDual (some "pk") (some "sk") (some "tk")
    resGateOpen resGateOpenAgain resTieLow (by decide) (by decide)
    (by decide) (by decide) (by decide) (by decide)
    (Or.inl ⟨rfl, by decide, by decide⟩)

/--
Claim C10: the agreement predicate reads the relevant fields with a
defaulting lookup, so a field absent from both parsed results compares as
equal: for every analysis type, two parsed results that both lack the
type's relevant fields (for example two parse-failure error payloads) are
judged to agree, no tiebreaker is invoked, and the primary's payload
becomes the final result with `agreement = true`.
-/
theorem C10_absent_fields_agree (config : AnalysisConfig)
    (pk sk tk : Option String) (p s t : AnalysisResult)
    (hpk : get_provider_err config.primary_provider pk = none)
    (hsec : truthyS config.secondary_provider = true)
    (hskey : truthyS sk = true)
    (hserr : get_provider_err (config.secondary_provider.getD "") sk = none)
    (hobjp : p.parsed_data.isObj = true)
    (hobjs : s.parsed_data.isObj = true)
    (habsent :
      (config.analysis_type = "gate_detection" ∧
        pyGet p.parsed_data "gate_visible" = none ∧
        pyGet s.parsed_data "gate_visible" = none ∧
        pyGet p.parsed_data "gate_open" = none ∧
        pyGet s.parsed_data "gate_open" = none) ∨
      (config.analysis_type = "water_level" ∧
        pyGet p.parsed_data "water_level" = none ∧
        pyGet s.parsed_data "water_level" = none) ∨
      (config.analysis_type = "feed_bin" ∧
        pyGet p.parsed_data "feed_level" = none ∧
        pyGet s.parsed_data "feed_level" = none) ∨
      (config.analysis_type ≠ "gate_detection" ∧
        config.analysis_type ≠ "water_level" ∧
        config.analysis_type ≠ "feed_bin" ∧
        pyGet p.parsed_data "conclusion" = none ∧
        pyGet s.parsed_data "conclusion" = none)) :
    analyze_with_dual_models config pk sk tk p s t =
      .ok { primary_result := p, secondary_result := some s,
            tiebreaker_result := none, final_result := p.parsed_data,
            agreement := true, tiebreaker_used := false } := by
  have hagr : check_agreement p.parsed_data s.parsed_data
      config.analysis_type = true := by
    rcases habsent with ⟨ht, h1, h2, h3, h4⟩ | ⟨ht, h1, h2⟩ |
      ⟨ht, h1, h2⟩ | ⟨ht1, ht2, ht3, h1, h2⟩ <;>
      simp [check_agreement, *]
  exact analyze_agreement_case config pk sk tk p s t hpk hsec hskey hserr
    hagr

/-- Witness for C10: two parse-failure error payloads under
`gate_detection` — both lack the gate fields, so they "agree" and the
primary's error payload becomes the final result, with no tiebreaker
despite one being configured. -/
theorem C10_absent_fields_agree_witness :
    analyze_with_dual_models cfgDual (some "pk") (some "sk") (some "tk")
        resUnparseable1 resUnparseable2 resTieLow =
      .ok { primary_result := resUnparseable1,
            secondary_result := some resUnparseable2,
            tiebreaker_result := none,
            final_result := resUnparseable1.parsed_data,
            agreement := true, tiebreaker_used := false } :=
  C10_absent_fields_agree cfgDual (some "pk") (some "sk") (some "tk")
    resUnparseable1 resUnparseable2 resTieLow (by decide) (by decide)
    (by decide) (by decide) (by decide) (by decide)
    (Or.inl ⟨rfl, by decide, by decide, by decide, by decide⟩)

/--
Claim C7: for every cache key tuple, `save_to_cache` then `check_cache`
with the same key before the TTL has elapsed (strictly before
`expires_at = now + cache_hours`) returns the stored row; a lookup at or
after expiry, or with a key never stored, returns `None`.
-/
theorem C7_cache_ttl (st : CacheState) (now t2 : ℚ) (k : CacheKey)
    (res : PyJson) (conf : ℚ) (cache_hours : ℚ) :
    (t2 < now + cache_hours →
      check_cache (save_to_cache st now k res conf cache_hours) t2 k =
        some { result := res, confidence := conf,
               expires_at := now + cache_hours }) ∧
    (now + cache_hours ≤ t2 →
      check_cache (save_to_cache st now k res conf cache_hours) t2 k =
        none) ∧
    (∀ k2, st k2 = none → check_cache st t2 k2 = none) := by
  refine ⟨fun hlt => ?_, fun hge => ?_, fun k2 hmiss => ?_⟩
  · simp [check_cache, save_to_cache, hlt]
  · simp [check_cache, save_to_cache, not_lt.mpr hge]
  · simp [check_cache, hmiss]

/-- Witness for C7: store at time 0 with a 24-hour TTL into the empty
cache; look up at time 1 (hit), at time 25 (expired), and a never-stored
key at time 1 (miss). -/
theorem C7_cache_ttl_witness :
    (check_cache
        (save_to_cache (fun _ => none) 0
          ⟨"h1", "gate_detection", "openai", "gpt-4o"⟩ (.obj [])
          (mkRat 9 10) 24)
        1 ⟨"h1", "gate_detection", "openai", "gpt-4o"⟩ =
      some { result := .obj [], confidence := mkRat 9 10,
             expires_at := 0 + 24 }) ∧
    (check_cache
        (save_to_cache (fun _ => none) 0
          ⟨"h1", "gate_detection", "openai", "gpt-4o"⟩ (.obj [])
          (mkRat 9 10) 24)
        25 ⟨"h1", "gate_detection", "openai", "gpt-4o"⟩ = none) ∧
    (check_cache (fun _ => none) 1
        ⟨"h2", "water_level", "gemini", "gemini-1.5-flash"⟩ = none) :=
  ⟨(C7_cache_ttl (fun _ => none) 0 1
      ⟨"h1", "gate_detection", "openai", "gpt-4o"⟩ (.obj [])
      (mkRat 9 10) 24).1 (by rw [zero_add]; decide),
   (C7_cache_ttl (fun _ => none) 0 25
      ⟨"h1", "gate_detection", "openai", "gpt-4o"⟩ (.obj [])
      (mkRat 9 10) 24).2.1 (by rw [zero_add]; decide),
   (C7_cache_ttl (fun _ => none) 0 1
      ⟨"h1", "gate_detection", "openai", "gpt-4o"⟩ (.obj [])
      (mkRat 9 10) 24).2.2
     ⟨"h2", "water_level", "gemini", "gemini-1.5-flash"⟩ rfl⟩

/--
Claim C8: in every iteration of the continuous loop, a completely full
batch (`processed == batch_size`) loops again immediately; otherwise the
loop sleeps `max(0, interval_minutes*60 - elapsed)` seconds; an exception
escaping the body results in a fixed 60-second backoff; and the loop never
terminates — over any finite stream of iteration outcomes it emits one
decision per outcome and keeps going (no outcome, exceptions included,
exits the `while True`).
-/
theorem C8_run_continuous_loop (batch_size : Nat) (interval_minutes : ℚ)
    (processed : Nat) (elapsed : ℚ) (os : List BatchOutcome) :
    (processed = batch_size →
      run_continuous_step batch_size interval_minutes
        (.ok processed elapsed) = .immediate) ∧
    (processed ≠ batch_size →
      run_continuous_step batch_size interval_minutes
        (.ok processed elapsed) =
        .sleepFor (max 0 (interval_minutes * 60 - elapsed))) ∧
    (run_continuous_step batch_size interval_minutes .raises =
      .sleepFor 60) ∧
    ((run_continuous batch_size interval_minutes os).length = os.length) :=
  by
  refine ⟨fun h => by simp [run_continuous_step, h],
          fun h => by simp [run_continuous_step, h],
          rfl, ?_⟩
  induction os with
  | nil => rfl
  | cons o rest ih => simp [run_continuous, ih]

/-- Witness for C8 with batch size 10, a 30-minute interval: a full batch
loops immediately, a 3-task batch after 5 seconds sleeps the remaining
time, an exception backs off 60 seconds, and a 3-outcome stream yields 3
decisions. -/
theorem C8_run_continuous_loop_witness :
    (run_continuous_step 10 30 (.ok 10 5) = .immediate) ∧
    (run_continuous_step 10 30 (.ok 3 5) =
      .sleepFor (max 0 (30 * 60 - 5))) ∧
    (run_continuous_step 10 30 .raises = .sleepFor 60) ∧
    ((run_continuous 10 30 [.ok 10 5, .raises, .ok 3 5]).length = 3) :=
  ⟨(C8_run_continuous_loop 10 30 10 5 []).1 rfl,
   (C8_run_continuous_loop 10 30 3 5 []).2.1 (by decide),
   (C8_run_continuous_loop 10 30 3 5 []).2.2.1,
   (C8_run_continuous_loop 10 30 3 5 [.ok 10 5, .raises, .ok 3 5]).2.2.2⟩

/-- An api_keys environment holding a key for every provider. -/
def apiKeysAll : String → Option String := fun _ => some "key"

/-- Environment for C4's witness: a primary-only config whose provider
call raises a network error; every infra collaborator succeeds. -/
def envProviderFail : TaskEnv :=
  { task_found := true, prior_status := "pending", config := some cfgSolo,
    image_found := true, download := .ok, api_keys := apiKeysAll,
    primary_call :=
      openai_analyze_image (.raises "Connection error") "gpt-4o" 1200,
    secondary_call := resGateClosed, tiebreaker_call := resTieLow }

/--
Claim C4: for every provider-side failure — the underlying API call raises
(which covers timeouts), or the response carries blocked/empty content —
`analyze_image` returns an `AnalysisResult` with a non-null `error` and
confidence 0 rather than propagating an exception (the adapters are total
functions over all failure outcomes), and a task whose primary call fails
this way still reaches `completed`, not `failed`, provided the task's own
infrastructure steps succeed (the error is contained at the consensus
layer).
-/
theorem C4_provider_failure_contained (msg : String) (model : String)
    (ms : Nat) (toks inp out : Nat) (env : TaskEnv) (cfg : AnalysisConfig)
    (htask : env.task_found = true)
    (hcfg : env.config = some cfg)
    (himg : env.image_found = true)
    (hdl : env.download = .ok)
    (hpk : get_provider_err cfg.primary_provider
      (env.api_keys (pyUpper cfg.primary_provider ++ "_API_KEY")) = none)
    (hnosec : truthyS cfg.secondary_provider = false)
    (hprim : env.primary_call =
      openai_analyze_image (.raises msg) model ms) :
    ((openai_analyze_image (.raises msg) model ms).error ≠ none ∧
      (openai_analyze_image (.raises msg) model ms).confidence = 0) ∧
    ((openai_analyze_image (.ok none toks inp out) model ms).error ≠ none ∧
      (openai_analyze_image (.ok none toks inp out) model ms).confidence
        = 0) ∧
    ((gemini_analyze_image (.raises msg) model ms).error ≠ none ∧
      (gemini_analyze_image (.raises msg) model ms).confidence = 0) ∧
    ((gemini_analyze_image (.ok [] toks none none) model ms).error ≠ none ∧
      (gemini_analyze_image (.ok [] toks none none) model ms).confidence
        = 0) ∧
    process_analysis_task env =
      (true, [("processing", none), ("completed", none)]) := by
  refine ⟨⟨by simp [openai_analyze_image, openai_error_result], rfl⟩,
          ⟨by simp [openai_analyze_image, openai_error_result], rfl⟩,
          ⟨by simp [gemini_analyze_image, gemini_error_result], rfl⟩,
          ⟨by simp [gemini_analyze_image, gemini_error_result], rfl⟩, ?_⟩
  simp [process_analysis_task, htask, hcfg, himg, hdl,
    analyze_with_dual_models, hpk, hnosec, hprim, openai_analyze_image,
    openai_error_result, PyJson.isObj]

/-- Witness for C4: a raised `Connection error` on the primary call of a
primary-only gate config; the adapter reports the error in-band and the
task completes. -/
theorem C4_provider_failure_contained_witness :
    ((openai_analyze_image (.raises "Connection error") "gpt-4o" 1200).error
        ≠ none ∧
      (openai_analyze_image (.raises "Connection error") "gpt-4o"
        1200).confidence = 0) ∧
    ((openai_analyze_image (.ok none 10 5 5) "gpt-4o" 1200).error ≠ none ∧
      (openai_analyze_image (.ok none 10 5 5) "gpt-4o" 1200).confidence
        = 0) ∧
    ((gemini_analyze_image (.raises "Connection error") "gpt-4o"
        1200).error ≠ none ∧
      (gemini_analyze_image (.raises "Connection error") "gpt-4o"
        1200).confidence = 0) ∧
    ((gemini_analyze_image (.ok [] 10 none none) "gpt-4o" 1200).error
        ≠ none ∧
      (gemini_analyze_image (.ok [] 10 none none) "gpt-4o"
        1200).confidence = 0) ∧
    process_analysis_task envProviderFail =
      (true, [("processing", none), ("completed", none)]) :=
  C4_provider_failure_contained "Connection error" "gpt-4o" 1200 10 5 5
    envProviderFail cfgSolo rfl rfl rfl rfl (by decide) (by decide) rfl

/--
Counterexample for claim C5: on the undecodable response `"hello"`, the
adapter's parsed data is not the claimed
`\x7b"error": "unparseable", "raw": ...\x7d` payload (the code's error
marker is the string `"Failed to parse JSON response"`), and the persisted
log is marked analysis *successful*, not unsuccessful: the parse-failure
path never sets the result's `error` field, and `_save_analysis_log`
computes `analysis_successful = result.error is None`.
-/
theorem C5_counterexample :
    (openai_analyze_image (.ok (some "hello".data) 10 5 5) "gpt-4o"
        3).parsed_data ≠
      .obj [("error", .str "unparseable"), ("raw", .str "hello")] ∧
    (openai_analyze_image (.ok (some "hello".data) 10 5 5) "gpt-4o"
        3).error = none ∧
    (save_analysis_log_entry
      (openai_analyze_image (.ok (some "hello".data) 10 5 5) "gpt-4o"
        3)).analysis_successful = true := by
  decide

/--
Claim C5 as amended: for every raw model response from which no JSON can
be decoded (direct decoding of the cleaned response fails) or extracted
(the brace-span fallback also fails to decode), the adapter returns a
result whose parsed data is `\x7b"error": "Failed to parse JSON response",
"raw": <original text>\x7d` with confidence 0 and a `None` error field, the
persisted analysis log for that call is therefore marked analysis
*successful* (only raised exceptions mark it unsuccessful), and the task
itself still completes.
-/
theorem C5_unparseable_payload (raw : List Char) (total inp out ms : Nat)
    (model : String) (env : TaskEnv) (cfg : AnalysisConfig)
    (hfail1 : jsonLoads (clean_response raw) = none)
    (hfail2 : ∀ sub, extract_json_span raw = some sub →
      jsonLoads sub = none)
    (htask : env.task_found = true)
    (hcfg : env.config = some cfg)
    (himg : env.image_found = true)
    (hdl : env.download = .ok)
    (hpk : get_provider_err cfg.primary_provider
      (env.api_keys (pyUpper cfg.primary_provider ++ "_API_KEY")) = none)
    (hnosec : truthyS cfg.secondary_provider = false)
    (hprim : env.primary_call =
      openai_analyze_image (.ok (some raw) total inp out) model ms) :
    (openai_analyze_image (.ok (some raw) total inp out) model
        ms).parsed_data = error_payload raw ∧
    (openai_analyze_image (.ok (some raw) total inp out) model
        ms).confidence = 0 ∧
    (openai_analyze_image (.ok (some raw) total inp out) model ms).error
      = none ∧
    (save_analysis_log_entry
      (openai_analyze_image (.ok (some raw) total inp out) model
        ms)).analysis_successful = true ∧
    process_analysis_task env =
      (true, [("processing", none), ("completed", none)]) := by
  have hpr : parse_response raw = .ok (error_payload raw) 0 := by
    unfold parse_response
    rw [hfail1]
    cases hx : extract_json_span raw with
    | none => rfl
    | some sub => simp [hfail2 sub hx]
  refine ⟨?_, ?_, ?_, ?_, ?_⟩
  · simp [openai_analyze_image, hpr]
  · simp [openai_analyze_image, hpr]
  · simp [openai_analyze_image, hpr]
  · simp [openai_analyze_image, hpr, save_analysis_log_entry]
  · simp [process_analysis_task, htask, hcfg, himg, hdl,
      analyze_with_dual_models, hpk, hnosec, hprim, openai_analyze_image,
      hpr, error_payload, PyJson.isObj]

/-- Environment for C5's witness: the primary call answers `"hello"`,
which no tier of the parsing pipeline can decode. -/
def envUnparseable : TaskEnv :=
  { task_found := true, prior_status := "pending", config := some cfgSolo,
    image_found := true, download := .ok, api_keys := apiKeysAll,
    primary_call :=
      openai_analyze_image (.ok (some "hello".data) 10 5 5) "gpt-4o" 3,
    secondary_call := resGateClosed, tiebreaker_call := resTieLow }

/-- Witness for the amended C5 on the concrete response `"hello"`. -/
theorem C5_unparseable_payload_witness :
    (openai_analyze_image (.ok (some "hello".data) 10 5 5) "gpt-4o"
        3).parsed_data = error_payload "hello".data ∧
    (openai_analyze_image (.ok (some "hello".data) 10 5 5) "gpt-4o"
        3).confidence = 0 ∧
    (openai_analyze_image (.ok (some "hello".data) 10 5 5) "gpt-4o"
        3).error = none ∧
    (save_analysis_log_entry
      (openai_analyze_image (.ok (some "hello".data) 10 5 5) "gpt-4o"
        3)).analysis_successful = true ∧
    process_analysis_task envUnparseable =
      (true, [("processing", none), ("completed", none)]) :=
  C5_unparseable_payload "hello".data 10 5 5 3 "gpt-4o" envUnparseable
    cfgSolo (by decide)
    (fun sub h => by
      rw [show extract_json_span "hello".data = none from by decide] at h
      exact Option.noConfusion h)
    rfl rfl rfl rfl (by decide) (by decide) rfl

/-- Environment for C9's counterexample, first half: the image download
raises before the task is ever marked `processing`. -/
def envDownloadFail : TaskEnv :=
  { task_found := true, prior_status := "pending", config := some cfgSolo,
    image_found := true, download := .raises "Image download failed",
    api_keys := apiKeysAll, primary_call := resGateOpen,
    secondary_call := resGateClosed, tiebreaker_call := resTieLow }

/-- Environment for C9's counterexample, second half: a task already in
the terminal state `completed` is re-processed (the single-image path
`process_single_image` selects tasks by `image_id` with no status filter,
and `process_analysis_task` never reads the current status). -/
def envReplayCompleted : TaskEnv :=
  { task_found := true, prior_status := "completed",
    config := some cfgSolo, image_found := true, download := .ok,
    api_keys := apiKeysAll, primary_call := resGateOpen,
    secondary_call := resGateClosed, tiebreaker_call := resTieLow }

/--
Counterexample for claim C9: (1) a download failure is raised *before*
`update_task_status(task_id, 'processing')` is reached, so the outer
handler moves a `pending` task directly to `failed` — `failed` is not
entered only from `processing`; (2) `process_analysis_task` never checks
the task's current status, so the single-image path re-processes a
`completed` task, writing `processing` then `completed` again — a terminal
state is moved out of by the processor.
-/
theorem C9_counterexample :
    ((process_analysis_task envDownloadFail).2.map Prod.fst = ["failed"] ∧
      envDownloadFail.prior_status = "pending" ∧
      chain_allowed envDownloadFail.prior_status
        ((process_analysis_task envDownloadFail).2.map Prod.fst) =
        false) ∧
    ((process_analysis_task envReplayCompleted).2.map Prod.fst =
        ["processing", "completed"] ∧
      envReplayCompleted.prior_status = "completed" ∧
      chain_allowed envReplayCompleted.prior_status
        ((process_analysis_task envReplayCompleted).2.map Prod.fst) =
        false) := by
  decide

/--
Claim C9 as amended: for a task picked up from the pending queue (prior
status `pending`, which is all `get_pending_tasks` returns) whose image
download succeeds, every status trace written by `process_analysis_task`
follows the monotonic order `pending → processing → (completed | failed)`;
the exceptions the counterexample exhibits are a pre-`processing` infra
failure (download), which moves `pending` directly to `failed`, and the
single-image path, which re-processes tasks regardless of their current
(possibly terminal) status.
-/
theorem C9_status_monotonic (env : TaskEnv)
    (hdl : env.download = .ok) :
    chain_allowed "pending"
      ((process_analysis_task env).2.map Prod.fst) = true := by
  simp only [process_analysis_task, hdl]
  split
  · rfl
  · split
    · rfl
    · split
      · rfl
      · split
        · simp [chain_allowed, status_step_allowed]
        · split
          · simp [chain_allowed, status_step_allowed]
          · simp [chain_allowed, status_step_allowed]

/-- Environment for the amended C9's witness: a successful happy-path run
from `pending`. -/
def envHappyPath : TaskEnv :=
  { task_found := true, prior_status := "pending", config := some cfgSolo,
    image_found := true, download := .ok, api_keys := apiKeysAll,
    primary_call := resGateOpen, secondary_call := resGateClosed,
    tiebreaker_call := resTieLow }

/-- Witness for the amended C9 on a concrete happy-path environment. -/
theorem C9_status_monotonic_witness :
    chain_allowed "pending"
      ((process_analysis_task envHappyPath).2.map Prod.fst) = true :=
  C9_status_monotonic envHappyPath rfl

/-! ### Helper lemmas for the parsing-pipeline claim -/

/-- Python `str.strip()` leaves a text untouched when neither end is whitespace. -/
theorem pyStrip_eq_self {l : List Char}
    (h1 : ∀ c, l.head? = some c → isPyWs c = false)
    (h2 : ∀ c, l.getLast? = some c → isPyWs c = false) : pyStrip l = l := by
  unfold pyStrip
  have hd : l.dropWhile isPyWs = l := by
    cases l with
    | nil => rfl
    | cons a t =>
      rw [List.dropWhile_cons, h1 a rfl]
      simp
  rw [hd]
  have hr : l.reverse.dropWhile isPyWs = l.reverse := by
    cases hrev : l.reverse with
    | nil => rfl
    | cons a t =>
      have ha : l.getLast? = some a := by
        rw [← List.head?_reverse, hrev]; rfl
      rw [List.dropWhile_cons, h2 a ha]
      simp
  rw [hr, List.reverse_reverse]

/-- A nonempty text's reverse starts with its last character. -/
theorem reverse_eq_cons_of_getLast {l : List Char} {c : Char}
    (h : l.getLast? = some c) : ∃ t, l.reverse = c :: t := by
  cases hrev : l.reverse with
  | nil =>
    exfalso
    have hh := List.head?_reverse l
    rw [hrev, h] at hh
    exact Option.noConfusion hh
  | cons a t =>
    have hh := List.head?_reverse l
    rw [hrev, h] at hh
    exact ⟨t, by rw [Option.some.inj hh]⟩

/-- The function `clean_response` is the identity on a serialized JSON object (a text
that starts with an opening brace and ends with a closing brace). -/
theorem clean_response_serialized {s : List Char}
    (hhead : s.head? = some lbrace) (hlast : s.getLast? = some rbrace) :
    clean_response s = s := by
  obtain ⟨s1, rfl⟩ : ∃ s1, s = lbrace :: s1 := by
    cases s with
    | nil => exact Option.noConfusion hhead
    | cons a t => exact ⟨t, by rw [Option.some.inj hhead]⟩
  obtain ⟨t, hrev⟩ := reverse_eq_cons_of_getLast hlast
  have hstrip : pyStrip (lbrace :: s1) = lbrace :: s1 :=
    pyStrip_eq_self
      (fun c hc => by rw [(Option.some.inj hc).symm]; decide)
      (fun c hc => by
        rw [hlast] at hc
        rw [(Option.some.inj hc).symm]; decide)
  have hpf1 : fenceJson.isPrefixOf (lbrace :: s1) = false := rfl
  have hpf2 : fenceTicks.isPrefixOf (lbrace :: s1) = false := rfl
  have hsf : fenceTicks.isSuffixOf (lbrace :: s1) = false := by
    unfold List.isSuffixOf
    rw [hrev]
    rfl
  unfold clean_response
  rw [hstrip]
  unfold clean_leading_fence
  rw [hpf1, hpf2]
  simp only [Bool.false_eq_true, if_false]
  unfold clean_trailing_fence
  rw [hsf]
  simp only [Bool.false_eq_true, if_false]
  exact hstrip

/-- The markdown-fenced shape of a raw response: the serialized data on
its own line between a `(backticks)json` opener and a closing fence. -/
def fence_wrap (s : List Char) : List Char :=
  fenceJson ++ ('\n' :: (s ++ ('\n' :: fenceTicks)))

/-- The opening brace is not whitespace. -/
theorem isPyWs_lbrace : isPyWs lbrace = false := by decide

/-- The closing brace is not whitespace. -/
theorem isPyWs_rbrace : isPyWs rbrace = false := by decide

/-- A newline is whitespace. -/
theorem isPyWs_nl : isPyWs '\n' = true := by decide

/-- Python `str.strip()` removes exactly the newline wrapping around a serialized
object. -/
theorem pyStrip_nl_wrap {s1 t : List Char}
    (hrev : (lbrace :: s1).reverse = rbrace :: t) :
    pyStrip ('\n' :: ((lbrace :: s1) ++ ['\n'])) = lbrace :: s1 := by
  unfold pyStrip
  have h1 : ('\n' :: ((lbrace :: s1) ++ ['\n'])).dropWhile isPyWs =
      (lbrace :: s1) ++ ['\n'] := by
    simp [List.dropWhile_cons, isPyWs_nl, isPyWs_lbrace]
  rw [h1]
  have h2 : ((lbrace :: s1) ++ ['\n']).reverse =
      '\n' :: (rbrace :: t) := by
    rw [List.reverse_append, hrev]
    rfl
  rw [h2]
  have h3 : ('\n' :: (rbrace :: t)).dropWhile isPyWs = rbrace :: t := by
    simp [List.dropWhile_cons, isPyWs_nl, isPyWs_rbrace]
  rw [h3, ← hrev, List.reverse_reverse]

/-- The function `clean_response` recovers the serialized object from its markdown-fenced
wrapping. -/
theorem clean_response_fenced {s : List Char}
    (hhead : s.head? = some lbrace) (hlast : s.getLast? = some rbrace) :
    clean_response (fence_wrap s) = s := by
  obtain ⟨s1, rfl⟩ : ∃ s1, s = lbrace :: s1 := by
    cases s with
    | nil => exact Option.noConfusion hhead
    | cons a t => exact ⟨t, by rw [Option.some.inj hhead]⟩
  obtain ⟨t, hrev⟩ := reverse_eq_cons_of_getLast hlast
  have hassoc : fence_wrap (lbrace :: s1) =
      (fenceJson ++ ('\n' :: ((lbrace :: s1) ++ ['\n']))) ++ fenceTicks := by
    simp [fence_wrap]
  have hstrip0 : pyStrip (fence_wrap (lbrace :: s1)) =
      fence_wrap (lbrace :: s1) := by
    apply pyStrip_eq_self
    · intro c hc
      rw [show (fence_wrap (lbrace :: s1)).head? = some btick from rfl]
        at hc
      rw [(Option.some.inj hc).symm]; decide
    · intro c hc
      rw [hassoc, List.getLast?_append_of_ne_nil _ (by decide),
        show fenceTicks.getLast? = some btick from rfl] at hc
      rw [(Option.some.inj hc).symm]; decide
  have hpf : fenceJson.isPrefixOf (fence_wrap (lbrace :: s1)) = true := by
    rw [List.isPrefixOf_iff_prefix]
    exact List.prefix_append _ _
  have hdrop : (fence_wrap (lbrace :: s1)).drop 7 =
      '\n' :: ((lbrace :: s1) ++ ('\n' :: fenceTicks)) :=
    List.drop_left fenceJson _
  have hassoc2 : '\n' :: ((lbrace :: s1) ++ ('\n' :: fenceTicks)) =
      ('\n' :: ((lbrace :: s1) ++ ['\n'])) ++ fenceTicks := by
    simp
  have hsf : fenceTicks.isSuffixOf
      ('\n' :: ((lbrace :: s1) ++ ('\n' :: fenceTicks))) = true := by
    rw [List.isSuffixOf_iff_suffix, hassoc2]
    exact List.suffix_append _ _
  have htake : ('\n' :: ((lbrace :: s1) ++ ('\n' :: fenceTicks))).take
      (('\n' :: ((lbrace :: s1) ++ ('\n' :: fenceTicks))).length - 3) =
      '\n' :: ((lbrace :: s1) ++ ['\n']) := by
    rw [hassoc2]
    have hlen : (('\n' :: ((lbrace :: s1) ++ ['\n'])) ++
        fenceTicks).length =
        ('\n' :: ((lbrace :: s1) ++ ['\n'])).length + 3 := by
      simp [fenceTicks]
    rw [hlen, Nat.add_sub_cancel]
    exact List.take_left _ _
  unfold clean_response
  rw [hstrip0]
  unfold clean_leading_fence
  rw [hpf]
  simp only [if_true]
  rw [hdrop]
  unfold clean_trailing_fence
  rw [hsf]
  simp only [if_true]
  rw [htake]
  exact pyStrip_nl_wrap hrev

/-- A list starting with a matching character has first index 0. -/
theorem firstIdxFrom_cons_of_pos {p : Char → Bool} {c : Char}
    (cs : List Char) (h : p c = true) :
    firstIdxFrom p (c :: cs) = some 0 := by
  simp [firstIdxFrom, h]

/-- If no character of the leading part matches, the first matching index
shifts past it. -/
theorem firstIdxFrom_append_of_none {p : Char → Bool} {l1 : List Char}
    (l2 : List Char) (h : ∀ c ∈ l1, p c = false) :
    firstIdxFrom p (l1 ++ l2) =
      (firstIdxFrom p l2).map (· + l1.length) := by
  induction l1 with
  | nil =>
    cases hx : firstIdxFrom p l2 <;> simp [hx]
  | cons a t ih =>
    have hpa : p a = false := h a (by simp)
    have ht : ∀ c ∈ t, p c = false := fun c hc => h c (by simp [hc])
    rw [List.cons_append]
    simp only [firstIdxFrom, hpa, Bool.false_eq_true, if_false,
      ih ht, List.length_cons]
    cases firstIdxFrom p l2 with
    | none => rfl
    | some v =>
      show some (v + t.length + 1) = some (v + (t.length + 1))
      rw [Nat.add_assoc]

/--
The greedy brace-span extraction on prose-wrapped serialized data: with no
opening brace in the leading prose and no closing brace in the trailing
prose, the extracted span (first opening brace of the whole text to last
closing brace of the whole text) is exactly the serialized object.
-/
theorem extract_json_span_prose {s p1 p2 : List Char}
    (hhead : s.head? = some lbrace) (hlast : s.getLast? = some rbrace)
    (hp1 : ∀ c ∈ p1, c ≠ lbrace) (hp2 : ∀ c ∈ p2, c ≠ rbrace) :
    extract_json_span (p1 ++ s ++ p2) = some s := by
  obtain ⟨s1, rfl⟩ : ∃ s1, s = lbrace :: s1 := by
    cases s with
    | nil => exact Option.noConfusion hhead
    | cons a t => exact ⟨t, by rw [Option.some.inj hhead]⟩
  obtain ⟨t, hrev⟩ := reverse_eq_cons_of_getLast hlast
  have hs1ne : s1 ≠ [] := by
    intro hnil
    subst hnil
    rw [show ([lbrace] : List Char).getLast? = some lbrace from rfl]
      at hlast
    exact absurd (Option.some.inj hlast) (by decide)
  have hslen : 2 ≤ (lbrace :: s1).length := by
    cases s1 with
    | nil => exact absurd rfl hs1ne
    | cons b u => simp
  have hcons1 : firstIdxFrom (· == lbrace) (lbrace :: (s1 ++ p2)) =
      some 0 := firstIdxFrom_cons_of_pos _ (by simp)
  have hfirst : firstIdxFrom (· == lbrace) (p1 ++ (lbrace :: s1) ++ p2) =
      some p1.length := by
    rw [List.append_assoc, List.cons_append,
      firstIdxFrom_append_of_none _ (fun c hc => by simp [hp1 c hc]),
      hcons1]
    simp
  have hcons2 : firstIdxFrom (· == rbrace) (rbrace :: (t ++ p1.reverse)) =
      some 0 := firstIdxFrom_cons_of_pos _ (by simp)
  have hlastrev : firstIdxFrom (· == rbrace)
      ((p1 ++ (lbrace :: s1) ++ p2).reverse) = some p2.length := by
    rw [List.reverse_append, List.reverse_append, hrev,
      List.cons_append,
      firstIdxFrom_append_of_none _
        (fun c hc => by simp [hp2 c (List.mem_reverse.mp hc)]),
      hcons2]
    simp
  have hlen : (p1 ++ (lbrace :: s1) ++ p2).length =
      p1.length + (lbrace :: s1).length + p2.length := by
    simp
    omega
  unfold extract_json_span
  rw [hfirst, hlastrev]
  show (if p1.length <
        (p1 ++ (lbrace :: s1) ++ p2).length - 1 - p2.length
      then some (((p1 ++ (lbrace :: s1) ++ p2).drop p1.length).take
        (((p1 ++ (lbrace :: s1) ++ p2).length - 1 - p2.length) -
          p1.length + 1))
      else none) = some (lbrace :: s1)
  rw [if_pos (by rw [hlen]; omega)]
  have harith : ((p1 ++ (lbrace :: s1) ++ p2).length - 1 - p2.length) -
      p1.length + 1 = (lbrace :: s1).length := by
    rw [hlen]; omega
  rw [harith]
  have hdrop : (p1 ++ (lbrace :: s1) ++ p2).drop p1.length =
      (lbrace :: s1) ++ p2 := by
    rw [List.append_assoc]
    exact List.drop_left p1 _
  rw [hdrop, List.take_left]

/-- The serialized object `(lbrace)"a": 1(rbrace)` used by the parsing
shape scenarios. -/
def jsonA : List Char := [lbrace, '"', 'a', '"', ':', ' ', '1', rbrace]

/-- The text `jsonA` followed by prose that contains a closing brace. -/
def jsonAProse : List Char := jsonA ++ (' ' :: 'x' :: [rbrace])

/--
Counterexample for claim C6: the extraction step is not "the first
balanced span" but the greedy span from the first opening brace to the
*last* closing brace of the raw text.  With trailing prose containing a
closing brace (`jsonAProse` is the serialized object followed by ` x` and
a closing brace), the bare shape parses to the object while the prose
shape extracts the whole text, fails to decode it, and degrades to the
error payload — the three shapes do not all produce the same parsed data.
-/
theorem C6_counterexample :
    parse_response jsonA =
      .ok (.obj [("a", .num 1)]) (mkRat 1 2) ∧
    extract_json_span jsonAProse = some jsonAProse ∧
    parse_response jsonAProse = .ok (error_payload jsonAProse) 0 ∧
    parse_response jsonAProse ≠ parse_response jsonA := by
  decide

/--
Claim C6 as amended: for every JSON object `J` serialized as a text `s`
(decoding back to `J`), the parsing pipeline produces the same parsed data
`J` for all three input shapes — `s` inside markdown `(backticks)json`
fences, bare `s`, and `s` with surrounding prose — provided that, in the
prose shape, direct decoding of the wrapped text fails, the leading prose
contains no opening brace, and the trailing prose contains no closing
brace; the extraction step takes the greedy span from the first opening
brace to the last closing brace of the raw text (not the first balanced
span).
-/
theorem C6_parse_pipeline_shapes (s p1 p2 : List Char)
    (J : List (String × PyJson))
    (hJ : jsonLoads s = some (.obj J))
    (hhead : s.head? = some lbrace)
    (hlast : s.getLast? = some rbrace)
    (hp1 : ∀ c ∈ p1, c ≠ lbrace)
    (hp2 : ∀ c ∈ p2, c ≠ rbrace)
    (hdirect : jsonLoads (clean_response (p1 ++ s ++ p2)) = none) :
    parse_response s = .ok (.obj J) (confidence_of (.obj J)) ∧
    parse_response (fence_wrap s) =
      .ok (.obj J) (confidence_of (.obj J)) ∧
    parse_response (p1 ++ s ++ p2) =
      .ok (.obj J) (confidence_of (.obj J)) := by
  refine ⟨?_, ?_, ?_⟩
  · unfold parse_response
    rw [clean_response_serialized hhead hlast, hJ]
  · unfold parse_response
    rw [clean_response_fenced hhead hlast, hJ]
  · unfold parse_response
    rw [hdirect, extract_json_span_prose hhead hlast hp1 hp2]
    simp [hJ]

/-- Leading prose (no opening brace) for the C6 witness. -/
def proseBefore : List Char := "Sure: ".data

/-- Trailing prose (no closing brace) for the C6 witness. -/
def proseAfter : List Char := " hope that helps".data

/-- Witness for the amended C6 on the concrete object
`(lbrace)"a": 1(rbrace)` in all three shapes. -/
theorem C6_parse_pipeline_shapes_witness :
    parse_response jsonA =
      .ok (.obj [("a", .num 1)]) (confidence_of (.obj [("a", .num 1)])) ∧
    parse_response (fence_wrap jsonA) =
      .ok (.obj [("a", .num 1)]) (confidence_of (.obj [("a", .num 1)])) ∧
    parse_response (proseBefore ++ jsonA ++ proseAfter) =
      .ok (.obj [("a", .num 1)]) (confidence_of (.obj [("a", .num 1)])) :=
  C6_parse_pipeline_shapes jsonA proseBefore proseAfter [("a", .num 1)]
    (by decide) (by decide) (by decide) (by decide) (by decide)
    (by decide)

end RanchEye
